import Mathlib

/-!
Shallow embedding of the producer/consumer core of
`src/plugins/python/glsvgoverlaysrc.py` (class `SvgOverlaySource`),
and proofs about its flow-control contract.

The Python class guards all shared state with one lock + condition
variable (`self.cond`); the consumer (`do_gst_push_src_fill`) is the only
thread that pops the queue.  We model the shared state as a record, each
method as a pure state transformer, and a fill call as a function that
either returns a flow status, delivers a rendered item, fails the render
assertion, or blocks on `cond.wait()` (modelled as the result `blocked`,
describing a fill that reaches the wait with no concurrent producer to
wake it).
-/

namespace SvgOverlaySource

/-- `Gst.FlowReturn` values used by the source: `OK`, `EOS`, `FLUSHING`. -/
inductive FlowReturn where
  | ok
  | eos
  | flushing
deriving Repr, DecidableEq

/-- Module constants of `glsvgoverlaysrc.py` (lines 95-97). -/
def DEFAULT_IS_LIVE : Bool := true

/-- Default width (line 97 of the source: `DEFAULT_WIDTH = 480`). -/
def DEFAULT_WIDTH : Nat := 480

/-- Default height (line 96 of the source: `DEFAULT_HEIGHT = 640`). -/
def DEFAULT_HEIGHT : Nat := 640

/-- The mutable attributes of `SvgOverlaySource` set in `__init__`
(lines 111-126) that the claims are about.  `queue` is the
`collections.deque` of `(svg, pts)` items, front at the head. -/
structure SourceState where
  is_live : Bool
  width : Nat
  height : Nat
  min_stride : Nat
  flushing : Bool
  eos : Bool
  queue : List (String × Nat)
  print_fps : Nat
  fps_start : Nat
  input_frames : Nat
  output_frames : Nat
deriving Repr, DecidableEq

/-- `__init__` (lines 111-126): `print_fps` comes from the `PRINT_FPS`
environment variable, so it is a parameter here. -/
def initial_state (pf : Nat) : SourceState :=
  { is_live := DEFAULT_IS_LIVE
    width := DEFAULT_WIDTH
    height := DEFAULT_HEIGHT
    min_stride := 0
    flushing := false
    eos := false
    queue := []
    print_fps := pf
    fps_start := 0
    input_frames := 0
    output_frames := 0 }

/-- `reset` (lines 128-131): clear `eos`, empty the queue. -/
def reset (s : SourceState) : SourceState :=
  { s with eos := false, queue := [] }

/-- `set_eos` (lines 164-166): set the `eos` flag.  (The method body holds
the lock but does not call `cond.notify_all`; see `op_notifies`.) -/
def set_eos (s : SourceState) : SourceState :=
  { s with eos := true }

/-- `queue_svg` (lines 168-174): increment `input_frames`; if live, clear
the queue; append `(svg, pts)`; notify all waiters. -/
def queue_svg (svg : String) (pts : Nat) (s : SourceState) : SourceState :=
  let s1 := { s with input_frames := s.input_frames + 1 }
  let s2 := if s1.is_live then { s1 with queue := [] } else s1
  { s2 with queue := s2.queue ++ [(svg, pts)] }

/-- `set_flushing` (lines 176-179): set the `flushing` flag and notify all
waiters. -/
def set_flushing (v : Bool) (s : SourceState) : SourceState :=
  { s with flushing := v }

/-- The four producer-side operations of the spec's synchronization core:
`submit` = `queue_svg`, `requestEndOfStream` = `set_eos`,
`setFlushing` = `set_flushing`, `reset` = `reset`. -/
inductive ProducerOp where
  | submit (svg : String) (pts : Nat)
  | request_eos
  | set_flushing_op (v : Bool)
  | reset_op
deriving Repr, DecidableEq

/-- The state transformer of each producer-side operation. -/
def apply_producer_op : ProducerOp → SourceState → SourceState
  | ProducerOp.submit svg pts, s => queue_svg svg pts s
  | ProducerOp.request_eos, s => set_eos s
  | ProducerOp.set_flushing_op v, s => set_flushing v s
  | ProducerOp.reset_op, s => reset s

/-- Whether the Python method body of the operation calls
`self.cond.notify_all()`.  Traced from the source: `queue_svg` notifies at
line 174 and `set_flushing` at line 179; the bodies of `set_eos`
(lines 164-166: `with self.cond: self.eos = True`) and `reset`
(lines 128-131: `with self.cond: self.eos = False; self.queue.clear()`)
contain no `notify_all` call. -/
def op_notifies : ProducerOp → Bool
  | ProducerOp.submit _ _ => true
  | ProducerOp.request_eos => false
  | ProducerOp.set_flushing_op _ => true
  | ProducerOp.reset_op => false

/-- `get_flow_return_locked` (lines 206-212): if the queue is empty and
`eos` is set, clear `eos` and return `EOS`; else if `flushing`, return
`FLUSHING`; else return the default (`None` at the top of a fill,
`Gst.FlowReturn.OK` at the end). -/
def get_flow_return_locked (s : SourceState) (dflt : Option FlowReturn) :
    Option FlowReturn × SourceState :=
  if s.queue = [] ∧ s.eos = true then
    (some FlowReturn.eos, { s with eos := false })
  else if s.flushing = true then
    (some FlowReturn.flushing, s)
  else
    (dflt, s)

/-- The external rasterizer interface (librsvg + cairo, out of scope per
the spec): markup, width, height, stride, destination buffer (already
zeroed) → destination buffer after drawing. -/
abbrev Raster := String → Nat → Nat → Nat → List Nat → List Nat

/-- A rasterizer that draws nothing (used to instantiate witnesses). -/
def raster_id : Raster := fun _ _ _ _ buf => buf

/-- The failure of the buffer-capacity assertion in `render_svg`
(line 259: `assert len(mapped) >= stride * self.height`). -/
inductive RenderError where
  | bufferTooSmall
deriving Repr, DecidableEq

/-- `render_svg` (lines 247-280), with the buffer modelled as a byte list
and the stride taken from the buffer's video meta (or `min_stride`) by the
caller.  Order as in the source: map the buffer, assert
`len(mapped) >= stride * height`, `memset` the whole mapping to zero
(line 262 zeroes `sizeof(mapped)`, i.e. the full buffer), then hand the
zeroed buffer to the external rasterizer. -/
def render_svg (raster : Raster) (s : SourceState) (svg : String)
    (buf : List Nat) (stride : Nat) : Except RenderError (List Nat) :=
  if stride * s.height ≤ buf.length then
    Except.ok (raster svg s.width s.height stride (List.replicate buf.length 0))
  else
    Except.error RenderError.bufferTooSmall

/-- The statistics block at lines 232-244 of `do_gst_push_src_fill`:
increment `output_frames`; initialize `fps_start` on first use; if FPS
printing is enabled and the window has elapsed, print and reset the
window and both counters.  The `time.monotonic()` readings of one call
are modelled as the single instant `now`. -/
def fps_update (now : Nat) (s : SourceState) : SourceState :=
  let s1 := { s with output_frames := s.output_frames + 1 }
  let s2 := if s1.fps_start = 0 then { s1 with fps_start := now } else s1
  if s2.print_fps ≠ 0 ∧ s2.print_fps < now - s2.fps_start then
    { s2 with fps_start := now, input_frames := 0, output_frames := 0 }
  else
    s2

/-- Outcome of one `do_gst_push_src_fill` call in the absence of
concurrent interference: `ret` = returned a terminal status without
popping; `blocked` = reached `cond.wait()` on an empty queue (no producer
to wake it); `renderError` = the capacity assertion in `render_svg`
raised; `rendered` = popped `(svg, pts)`, wrote `buf` into the mapped
buffer, set `buf.pts = pts`, and returned `fr`. -/
inductive FillResult where
  | ret (fr : FlowReturn) (s : SourceState)
  | blocked (s : SourceState)
  | renderError (s : SourceState)
  | rendered (svg : String) (pts : Nat) (fr : FlowReturn) (buf : List Nat)
      (s : SourceState)
deriving Repr, DecidableEq

/-- The state after the fill call. -/
def FillResult.state : FillResult → SourceState
  | FillResult.ret _ s => s
  | FillResult.blocked s => s
  | FillResult.renderError s => s
  | FillResult.rendered _ _ _ _ s => s

/-- The flow status returned by the fill call, when it returned one. -/
def FillResult.flow_of : FillResult → Option FlowReturn
  | FillResult.ret fr _ => some fr
  | FillResult.blocked _ => none
  | FillResult.renderError _ => none
  | FillResult.rendered _ _ fr _ _ => some fr

/-- The item the fill call delivered, with the status it returned. -/
def FillResult.delivered : FillResult → Option (String × Nat × FlowReturn)
  | FillResult.rendered svg pts fr _ _ => some (svg, pts, fr)
  | _ => none

/-- Whether the fill call rendered an item. -/
def FillResult.is_rendered : FillResult → Bool
  | FillResult.rendered _ _ _ _ _ => true
  | _ => false

/-- `do_gst_push_src_fill` (lines 214-245): check
`get_flow_return_locked()` and return any status; if the queue is empty,
wait (`blocked` here, since no concurrent producer is modelled); pop the
head item; render it into `buf` with the given stride; set `buf.pts`;
run the statistics block; finally return
`get_flow_return_locked(Gst.FlowReturn.OK)`. -/
def do_gst_push_src_fill (raster : Raster) (s : SourceState) (buf : List Nat)
    (stride : Nat) (now : Nat) : FillResult :=
  match get_flow_return_locked s none with
  | (some fr, s1) => FillResult.ret fr s1
  | (none, s1) =>
    match s1.queue with
    | [] => FillResult.blocked s1
    | (svg, pts) :: rest =>
      match render_svg raster s1 svg buf stride with
      | Except.error _ => FillResult.renderError { s1 with queue := rest }
      | Except.ok out =>
        let s2 := fps_update now { s1 with queue := rest }
        match get_flow_return_locked s2 (some FlowReturn.ok) with
        | (some fr, s3) => FillResult.rendered svg pts fr out s3
        | (none, s3) => FillResult.rendered svg pts FlowReturn.ok out s3

/-- `Gst.SeekFlags.FLUSH` = `GST_SEEK_FLAG_FLUSH` = 1. -/
def gst_seek_flag_flush : Nat := 1

/-- The test at line 142 of `do_event`:
`if flags | Gst.SeekFlags.FLUSH:` — Python truthiness of a flags value is
"nonzero", and the operator is bitwise OR. -/
def seek_flush_test (flags : Nat) : Bool :=
  decide (flags ||| gst_seek_flag_flush ≠ 0)

/-- Events the seek handler may push. -/
inductive SentEvent where
  | flush_start
  | flush_stop
deriving Repr, DecidableEq

/-- The SEEK branch of `do_event` (lines 139-147): if the flush test
passes, send `flush-start` then `flush-stop`; then `reset()`. -/
def do_event_seek (flags : Nat) (s : SourceState) :
    List SentEvent × SourceState :=
  let evs :=
    if seek_flush_test flags then [SentEvent.flush_start, SentEvent.flush_stop]
    else []
  (evs, reset s)

/-- `cairo_format_stride_for_width` for `CAIRO_FORMAT_ARGB32`.
Modelled from the spec: the source calls this external cairo routine for
`min_stride`; per the spec's stride rule it is "bytes-per-pixel × width,
rounded to the format's alignment", i.e. 32 bits per pixel rounded up to
4-byte alignment. -/
def cairo_format_stride_for_width (w : Nat) : Nat :=
  4 * ((4 * w + 3) / 4)

/-- `do_set_caps` (lines 190-196): record negotiated width and height and
recompute `min_stride`. -/
def do_set_caps (w h : Nat) (s : SourceState) : SourceState :=
  { s with width := w, height := h,
           min_stride := cairo_format_stride_for_width w }

/-- `submit` folded over a list of `(svg, pts)` items, oldest first. -/
def submit_list (l : List (String × Nat)) (s : SourceState) : SourceState :=
  l.foldl (fun t p => queue_svg p.1 p.2 t) s

/-- Consecutive fill calls (one caller-provided buffer per call), with the
state threaded through. -/
def fill_seq (raster : Raster) (stride now : Nat) :
    List (List Nat) → SourceState → List FillResult × SourceState
  | [], s => ([], s)
  | buf :: bufs, s =>
    let r := do_gst_push_src_fill raster s buf stride now
    let (rs, s2) := fill_seq raster stride now bufs r.state
    (r :: rs, s2)

/-! ### Field-level lemmas about the single operations -/

theorem queue_svg_queue (svg : String) (pts : Nat) (s : SourceState) :
    (queue_svg svg pts s).queue =
      (if s.is_live then [] else s.queue) ++ [(svg, pts)] := by
  by_cases h : s.is_live <;> simp [queue_svg, h]

@[simp] theorem queue_svg_is_live (svg : String) (pts : Nat) (s : SourceState) :
    (queue_svg svg pts s).is_live = s.is_live := by
  by_cases h : s.is_live <;> simp [queue_svg, h]

@[simp] theorem queue_svg_flushing (svg : String) (pts : Nat) (s : SourceState) :
    (queue_svg svg pts s).flushing = s.flushing := by
  by_cases h : s.is_live <;> simp [queue_svg, h]

@[simp] theorem queue_svg_eos (svg : String) (pts : Nat) (s : SourceState) :
    (queue_svg svg pts s).eos = s.eos := by
  by_cases h : s.is_live <;> simp [queue_svg, h]

@[simp] theorem queue_svg_width (svg : String) (pts : Nat) (s : SourceState) :
    (queue_svg svg pts s).width = s.width := by
  by_cases h : s.is_live <;> simp [queue_svg, h]

@[simp] theorem queue_svg_height (svg : String) (pts : Nat) (s : SourceState) :
    (queue_svg svg pts s).height = s.height := by
  by_cases h : s.is_live <;> simp [queue_svg, h]

@[simp] theorem queue_svg_print_fps (svg : String) (pts : Nat) (s : SourceState) :
    (queue_svg svg pts s).print_fps = s.print_fps := by
  by_cases h : s.is_live <;> simp [queue_svg, h]

@[simp] theorem queue_svg_input_frames (svg : String) (pts : Nat) (s : SourceState) :
    (queue_svg svg pts s).input_frames = s.input_frames + 1 := by
  by_cases h : s.is_live <;> simp [queue_svg, h]

@[simp] theorem queue_svg_output_frames (svg : String) (pts : Nat) (s : SourceState) :
    (queue_svg svg pts s).output_frames = s.output_frames := by
  by_cases h : s.is_live <;> simp [queue_svg, h]

@[simp] theorem fps_update_queue (now : Nat) (s : SourceState) :
    (fps_update now s).queue = s.queue := by
  unfold fps_update
  by_cases h1 : s.fps_start = 0 <;> simp only [h1, if_true, if_false] <;>
    split <;> rfl

@[simp] theorem fps_update_eos (now : Nat) (s : SourceState) :
    (fps_update now s).eos = s.eos := by
  unfold fps_update
  by_cases h1 : s.fps_start = 0 <;> simp only [h1, if_true, if_false] <;>
    split <;> rfl

@[simp] theorem fps_update_flushing (now : Nat) (s : SourceState) :
    (fps_update now s).flushing = s.flushing := by
  unfold fps_update
  by_cases h1 : s.fps_start = 0 <;> simp only [h1, if_true, if_false] <;>
    split <;> rfl

@[simp] theorem fps_update_is_live (now : Nat) (s : SourceState) :
    (fps_update now s).is_live = s.is_live := by
  unfold fps_update
  by_cases h1 : s.fps_start = 0 <;> simp only [h1, if_true, if_false] <;>
    split <;> rfl

@[simp] theorem fps_update_width (now : Nat) (s : SourceState) :
    (fps_update now s).width = s.width := by
  unfold fps_update
  by_cases h1 : s.fps_start = 0 <;> simp only [h1, if_true, if_false] <;>
    split <;> rfl

@[simp] theorem fps_update_height (now : Nat) (s : SourceState) :
    (fps_update now s).height = s.height := by
  unfold fps_update
  by_cases h1 : s.fps_start = 0 <;> simp only [h1, if_true, if_false] <;>
    split <;> rfl

@[simp] theorem fps_update_print_fps (now : Nat) (s : SourceState) :
    (fps_update now s).print_fps = s.print_fps := by
  unfold fps_update
  by_cases h1 : s.fps_start = 0 <;> simp only [h1, if_true, if_false] <;>
    split <;> rfl

theorem fps_update_input_frames_of_disabled (now : Nat) (s : SourceState)
    (h : s.print_fps = 0) : (fps_update now s).input_frames = s.input_frames := by
  unfold fps_update
  by_cases h1 : s.fps_start = 0 <;> simp [h1, h]

theorem fps_update_output_frames_of_disabled (now : Nat) (s : SourceState)
    (h : s.print_fps = 0) :
    (fps_update now s).output_frames = s.output_frames + 1 := by
  unfold fps_update
  by_cases h1 : s.fps_start = 0 <;> simp [h1, h]

/-! ### Behaviour of one fill call -/

theorem fill_pop (raster : Raster) (s : SourceState) (svg : String) (pts : Nat)
    (rest : List (String × Nat)) (buf : List Nat) (stride now : Nat)
    (hq : s.queue = (svg, pts) :: rest) (hf : s.flushing = false)
    (hcap : stride * s.height ≤ buf.length) :
    ∃ s2, do_gst_push_src_fill raster s buf stride now =
        FillResult.rendered svg pts
          (if rest = [] ∧ s.eos = true then FlowReturn.eos else FlowReturn.ok)
          (raster svg s.width s.height stride (List.replicate buf.length 0)) s2
      ∧ s2.queue = rest
      ∧ s2.flushing = false
      ∧ s2.eos = (if rest = [] then false else s.eos)
      ∧ s2.is_live = s.is_live ∧ s2.width = s.width ∧ s2.height = s.height
      ∧ s2.print_fps = s.print_fps
      ∧ (s.print_fps = 0 →
          s2.input_frames = s.input_frames ∧
          s2.output_frames = s.output_frames + 1) := by
  by_cases he : rest = [] ∧ s.eos = true
  · obtain ⟨hr, hb⟩ := he
    refine ⟨{ fps_update now { s with queue := rest } with eos := false },
      ?_, ?_, ?_, ?_, ?_, ?_, ?_, ?_, ?_⟩
    · simp [do_gst_push_src_fill, get_flow_return_locked, render_svg, hq, hf,
        hcap, hr, hb]
    · simp
    · simp [hf]
    · simp [hr]
    · simp
    · simp
    · simp
    · simp
    · intro hp
      exact ⟨fps_update_input_frames_of_disabled now { s with queue := rest } hp,
        fps_update_output_frames_of_disabled now { s with queue := rest } hp⟩
  · refine ⟨fps_update now { s with queue := rest },
      ?_, ?_, ?_, ?_, ?_, ?_, ?_, ?_, ?_⟩
    · simp [do_gst_push_src_fill, get_flow_return_locked, render_svg, hq, hf,
        hcap, he]
    · simp
    · simp [hf]
    · rcases Decidable.em (rest = []) with hr | hr
      · have hb : s.eos = false := by
          cases hsb : s.eos
          · rfl
          · exact absurd ⟨hr, hsb⟩ he
        simp [hr, hb]
      · simp [hr]
    · simp
    · simp
    · simp
    · simp
    · intro hp
      exact ⟨fps_update_input_frames_of_disabled now { s with queue := rest } hp,
        fps_update_output_frames_of_disabled now { s with queue := rest } hp⟩

theorem fill_flushing_veto (raster : Raster) (s : SourceState) (buf : List Nat)
    (stride now : Nat) (hne : s.queue ≠ []) (hf : s.flushing = true) :
    do_gst_push_src_fill raster s buf stride now =
      FillResult.ret FlowReturn.flushing s := by
  simp [do_gst_push_src_fill, get_flow_return_locked, hne, hf]

theorem fill_blocked_of_idle (raster : Raster) (s : SourceState) (buf : List Nat)
    (stride now : Nat) (hq : s.queue = []) (he : s.eos = false)
    (hf : s.flushing = false) :
    do_gst_push_src_fill raster s buf stride now = FillResult.blocked s := by
  simp [do_gst_push_src_fill, get_flow_return_locked, hq, he, hf]

theorem submit_list_nil (s : SourceState) : submit_list [] s = s := rfl

theorem submit_list_cons (p : String × Nat) (l : List (String × Nat))
    (s : SourceState) :
    submit_list (p :: l) s = submit_list l (queue_svg p.1 p.2 s) := rfl

theorem submit_list_is_live (l : List (String × Nat)) (s : SourceState) :
    (submit_list l s).is_live = s.is_live := by
  induction l generalizing s with
  | nil => rfl
  | cons p l ih => rw [submit_list_cons, ih, queue_svg_is_live]

theorem submit_list_flushing (l : List (String × Nat)) (s : SourceState) :
    (submit_list l s).flushing = s.flushing := by
  induction l generalizing s with
  | nil => rfl
  | cons p l ih => rw [submit_list_cons, ih, queue_svg_flushing]

theorem submit_list_eos (l : List (String × Nat)) (s : SourceState) :
    (submit_list l s).eos = s.eos := by
  induction l generalizing s with
  | nil => rfl
  | cons p l ih => rw [submit_list_cons, ih, queue_svg_eos]

theorem submit_list_height (l : List (String × Nat)) (s : SourceState) :
    (submit_list l s).height = s.height := by
  induction l generalizing s with
  | nil => rfl
  | cons p l ih => rw [submit_list_cons, ih, queue_svg_height]

theorem submit_list_input_frames (l : List (String × Nat)) (s : SourceState) :
    (submit_list l s).input_frames = s.input_frames + l.length := by
  induction l generalizing s with
  | nil => rfl
  | cons p l ih =>
    rw [submit_list_cons, ih, queue_svg_input_frames, List.length_cons]
    omega

theorem submit_list_queue_of_not_live (l : List (String × Nat))
    (s : SourceState) (h : s.is_live = false) :
    (submit_list l s).queue = s.queue ++ l := by
  induction l generalizing s with
  | nil => simp [submit_list_nil]
  | cons p l ih =>
    rw [submit_list_cons, ih _ (by simp [h]), queue_svg_queue, h]
    simp

theorem submit_list_queue_of_live (l : List (String × Nat)) (s : SourceState)
    (h : s.is_live = true) (hne : l ≠ []) :
    (submit_list l s).queue = [l.getLast hne] := by
  induction l generalizing s with
  | nil => exact absurd rfl hne
  | cons p l ih =>
    rcases Decidable.em (l = []) with hl | hl
    · subst hl
      rw [submit_list_cons, submit_list_nil, queue_svg_queue, h]
      simp [List.getLast]
    · rw [submit_list_cons, ih _ (by simp [h]) hl]
      congr 1
      exact (List.getLast_cons hl).symm

theorem fill_seq_cons (raster : Raster) (stride now : Nat) (b : List Nat)
    (bs : List (List Nat)) (s : SourceState) :
    (fill_seq raster stride now (b :: bs) s).1 =
      do_gst_push_src_fill raster s b stride now ::
        (fill_seq raster stride now bs
          (do_gst_push_src_fill raster s b stride now).state).1 := by
  simp [fill_seq]

theorem fill_seq_drain (raster : Raster) (stride now : Nat) :
    ∀ (q : List (String × Nat)) (bufs : List (List Nat)) (s : SourceState),
      s.flushing = false → s.eos = false → s.queue = q →
      bufs.length = q.length →
      (∀ b ∈ bufs, stride * s.height ≤ b.length) →
      (fill_seq raster stride now bufs s).1.map FillResult.delivered =
        q.map (fun p => some (p.1, p.2, FlowReturn.ok)) := by
  intro q
  induction q with
  | nil =>
    intro bufs s hf he hq hlen hcap
    have hb : bufs = [] := List.eq_nil_of_length_eq_zero (by simp [hlen])
    subst hb
    rfl
  | cons p q ih =>
    intro bufs s hf he hq hlen hcap
    match bufs with
    | [] => simp at hlen
    | b :: bs =>
      obtain ⟨s2, heq, hq2, hf2, he2, hl2, hw2, hh2, hp2, _⟩ :=
        fill_pop raster s p.1 p.2 q b stride now (by rw [hq]) hf
          (hcap b (by simp))
      rw [fill_seq_cons, List.map_cons, heq]
      have hfr : (if q = [] ∧ s.eos = true then FlowReturn.eos else FlowReturn.ok)
          = FlowReturn.ok := by simp [he]
      rw [hfr] at heq ⊢
      have he2' : s2.eos = false := by
        rw [he2]
        rcases Decidable.em (q = []) with h | h <;> simp [h, he]
      have := ih bs s2 hf2 he2' hq2 (by simpa using hlen)
        (fun b2 hb2 => by rw [hh2]; exact hcap b2 (by simp [hb2]))
      simp [FillResult.delivered, FillResult.state, this]


theorem fill_ret_eos (raster : Raster) (s : SourceState) (buf : List Nat)
    (stride now : Nat) (h : s.queue = [] ∧ s.eos = true) :
    do_gst_push_src_fill raster s buf stride now =
      FillResult.ret FlowReturn.eos { s with eos := false } := by
  simp [do_gst_push_src_fill, get_flow_return_locked, h]

theorem fill_ret_flushing (raster : Raster) (s : SourceState) (buf : List Nat)
    (stride now : Nat) (h1 : ¬(s.queue = [] ∧ s.eos = true))
    (h2 : s.flushing = true) :
    do_gst_push_src_fill raster s buf stride now =
      FillResult.ret FlowReturn.flushing s := by
  simp [do_gst_push_src_fill, get_flow_return_locked, h1, h2]

theorem fill_render_error (raster : Raster) (s : SourceState) (svg : String)
    (pts : Nat) (rest : List (String × Nat)) (buf : List Nat)
    (stride now : Nat) (hq : s.queue = (svg, pts) :: rest)
    (hf : s.flushing = false) (hlt : buf.length < stride * s.height) :
    do_gst_push_src_fill raster s buf stride now =
      FillResult.renderError { s with queue := rest } := by
  have hr : render_svg raster s svg buf stride =
      Except.error RenderError.bufferTooSmall := by
    rw [render_svg, if_neg (by omega)]
  simp [do_gst_push_src_fill, get_flow_return_locked, hq, hf, hr]

theorem fill_counters_of_disabled (raster : Raster) (s : SourceState)
    (buf : List Nat) (stride now : Nat) (hp : s.print_fps = 0) :
    ((do_gst_push_src_fill raster s buf stride now).state).input_frames
        = s.input_frames
    ∧ ((do_gst_push_src_fill raster s buf stride now).state).output_frames
        = s.output_frames +
          (if (do_gst_push_src_fill raster s buf stride now).is_rendered
            then 1 else 0) := by
  rcases Decidable.em (s.queue = [] ∧ s.eos = true) with h1 | h1
  · rw [fill_ret_eos raster s buf stride now h1]
    simp [FillResult.state, FillResult.is_rendered]
  · rcases Decidable.em (s.flushing = true) with h2 | h2
    · rw [fill_ret_flushing raster s buf stride now h1 h2]
      simp [FillResult.state, FillResult.is_rendered]
    · have hf : s.flushing = false := by simpa using h2
      rcases hq : s.queue with _ | ⟨⟨svg, pts⟩, rest⟩
      · have he : s.eos = false := by
          cases hsb : s.eos
          · rfl
          · exact absurd ⟨hq, hsb⟩ h1
        rw [fill_blocked_of_idle raster s buf stride now hq he hf]
        simp [FillResult.state, FillResult.is_rendered]
      · rcases Decidable.em (stride * s.height ≤ buf.length) with h3 | h3
        · obtain ⟨s2, heq, _, _, _, _, _, _, _, hcnt⟩ :=
            fill_pop raster s svg pts rest buf stride now hq hf h3
          rw [heq]
          obtain ⟨hci, hco⟩ := hcnt hp
          simp [FillResult.state, FillResult.is_rendered, hci, hco]
        · rw [fill_render_error raster s svg pts rest buf stride now hq hf
            (by omega)]
          simp [FillResult.state, FillResult.is_rendered]

/-! ### The claims -/

/-- C1, counterexample: the claim says that after submitting one item and
requesting end-of-stream the FIRST fill returns Ok and the SECOND returns
Eos.  In the code, the first fill pops and renders the item and then
re-evaluates `get_flow_return_locked(Gst.FlowReturn.OK)`: the queue is now
empty and `eos` is set, so this very first fill already returns `EOS`
(not Ok), as this concrete run shows. -/
theorem C1_first_fill_not_ok :
    FillResult.flow_of (do_gst_push_src_fill raster_id
        (set_eos (queue_svg "a" 5 (initial_state 0))) [] 0 0)
      = some FlowReturn.eos := rfl

/-- C1 (amended): if exactly one item is submitted from an idle source
(empty queue, not flushing) and `set_eos` is then called, the first fill
renders that item and stamps its timestamp but returns `EOS` (the final
re-evaluation finds the queue empty with `eos` set, which also clears the
`eos` flag), and any later fill blocks — it does not return `EOS` again
without a new `set_eos` call, so `EOS` is single-shot. -/
theorem C1_eos_single_shot (raster : Raster) (svg : String) (pts : Nat)
    (s : SourceState) (buf buf2 : List Nat) (stride stride2 now now2 : Nat)
    (hq : s.queue = []) (hf : s.flushing = false)
    (hcap : stride * s.height ≤ buf.length) :
    ∃ s2,
      do_gst_push_src_fill raster (set_eos (queue_svg svg pts s)) buf stride now
        = FillResult.rendered svg pts FlowReturn.eos
            (raster svg s.width s.height stride (List.replicate buf.length 0)) s2
      ∧ s2.queue = [] ∧ s2.eos = false ∧ s2.flushing = false
      ∧ do_gst_push_src_fill raster s2 buf2 stride2 now2
          = FillResult.blocked s2 := by
  have hq1 : (set_eos (queue_svg svg pts s)).queue = (svg, pts) :: [] := by
    simp [set_eos, queue_svg_queue, hq]
  have hf1 : (set_eos (queue_svg svg pts s)).flushing = false := by
    simp [set_eos, hf]
  have hh1 : (set_eos (queue_svg svg pts s)).height = s.height := by
    simp [set_eos]
  have he1 : (set_eos (queue_svg svg pts s)).eos = true := by
    simp [set_eos]
  obtain ⟨s2, heq, hq2, hf2, he2, _, hw2, hh2, _, _⟩ :=
    fill_pop raster (set_eos (queue_svg svg pts s)) svg pts [] buf stride now
      hq1 hf1 (by rw [hh1]; exact hcap)
  refine ⟨s2, ?_, hq2, ?_, hf2, ?_⟩
  · rw [heq]
    have hfr : (if ([] : List (String × Nat)) = [] ∧
        (set_eos (queue_svg svg pts s)).eos = true
        then FlowReturn.eos else FlowReturn.ok) = FlowReturn.eos := by
      simp [he1]
    rw [hfr]
    have hw : (set_eos (queue_svg svg pts s)).width = s.width := by
      simp [set_eos]
    rw [hw, hh1]
  · rw [he2]
    simp
  · exact fill_blocked_of_idle raster s2 buf2 stride2 now2 hq2
      (by rw [he2]; simp) hf2

/-- C1, witness: the amended claim at a concrete run. -/
theorem C1_eos_single_shot_w :
    ∃ s2,
      do_gst_push_src_fill raster_id (set_eos (queue_svg "a" 5 (initial_state 0)))
          [] 0 0
        = FillResult.rendered "a" 5 FlowReturn.eos [] s2
      ∧ s2.queue = [] ∧ s2.eos = false ∧ s2.flushing = false
      ∧ do_gst_push_src_fill raster_id s2 [] 0 0 = FillResult.blocked s2 :=
  C1_eos_single_shot raster_id "a" 5 (initial_state 0) [] [] 0 0 0 0
    rfl rfl (by simp)

/-- C2: the claim says each of the four producer-side operations wakes all
waiters after updating the shared state.  In the code only `queue_svg`
(line 174) and `set_flushing` (line 179) call `self.cond.notify_all()`;
`set_eos` (lines 164-166) and `reset` (lines 128-131) update the state and
release the lock without notifying, so a fill call blocked in `cond.wait()`
is not woken by `requestEndOfStream` or `reset` — a lost wakeup. -/
theorem C2_notify_gap :
    op_notifies (ProducerOp.submit "x" 0) = true
    ∧ op_notifies (ProducerOp.set_flushing_op true) = true
    ∧ op_notifies ProducerOp.request_eos = false
    ∧ op_notifies ProducerOp.reset_op = false :=
  ⟨rfl, rfl, rfl, rfl⟩

/-- C3: with an item pending in the queue and `flushing` set, a fill call
returns `FLUSHING` with the state (in particular the queue) untouched;
after `set_flushing false`, a subsequent fill delivers that same item with
its original timestamp and returns `OK`. -/
theorem C3_flush_veto (raster : Raster) (s : SourceState) (svg : String)
    (pts : Nat) (rest : List (String × Nat)) (buf buf2 : List Nat)
    (stride stride2 now now2 : Nat)
    (hq : s.queue = (svg, pts) :: rest) (he : s.eos = false)
    (hcap : stride2 * s.height ≤ buf2.length) :
    do_gst_push_src_fill raster (set_flushing true s) buf stride now
      = FillResult.ret FlowReturn.flushing (set_flushing true s)
    ∧ ∃ s2,
        do_gst_push_src_fill raster (set_flushing false (set_flushing true s))
            buf2 stride2 now2
          = FillResult.rendered svg pts FlowReturn.ok
              (raster svg s.width s.height stride2
                (List.replicate buf2.length 0)) s2 := by
  constructor
  · apply fill_ret_flushing
    · simp [set_flushing, hq]
    · simp [set_flushing]
  · have hq1 : (set_flushing false (set_flushing true s)).queue
        = (svg, pts) :: rest := by simp [set_flushing, hq]
    obtain ⟨s2, heq, _⟩ :=
      fill_pop raster (set_flushing false (set_flushing true s)) svg pts rest
        buf2 stride2 now2 hq1 (by simp [set_flushing])
        (by simp [set_flushing]; exact hcap)
    refine ⟨s2, ?_⟩
    rw [heq]
    have hfr : (if rest = [] ∧
        (set_flushing false (set_flushing true s)).eos = true
        then FlowReturn.eos else FlowReturn.ok) = FlowReturn.ok := by
      simp [set_flushing, he]
    rw [hfr]
    have hw : (set_flushing false (set_flushing true s)).width = s.width := by
      simp [set_flushing]
    have hh : (set_flushing false (set_flushing true s)).height = s.height := by
      simp [set_flushing]
    rw [hw, hh]

/-- C3, witness: the flush veto at a concrete run. -/
theorem C3_flush_veto_w :
    do_gst_push_src_fill raster_id
        (set_flushing true { initial_state 0 with queue := [("x", 7)] }) [] 0 0
      = FillResult.ret FlowReturn.flushing
          (set_flushing true { initial_state 0 with queue := [("x", 7)] })
    ∧ ∃ s2,
        do_gst_push_src_fill raster_id
            (set_flushing false
              (set_flushing true { initial_state 0 with queue := [("x", 7)] }))
            [] 0 0
          = FillResult.rendered "x" 7 FlowReturn.ok [] s2 :=
  C3_flush_veto raster_id { initial_state 0 with queue := [("x", 7)] } "x" 7 []
    [] [] 0 0 0 0 rfl rfl (by simp)

/-- C4: a single submit clears the queue first exactly when `is_live`, then
appends; hence after any nonempty sequence of submits with no intervening
fill, a live source's queue holds exactly the most recent submission, and a
non-live source's queue is the old queue with all submissions appended. -/
theorem C4_live_collapse (s : SourceState) (svg : String) (pts : Nat)
    (l : List (String × Nat)) (hne : l ≠ []) :
    (queue_svg svg pts s).queue
        = (if s.is_live then [] else s.queue) ++ [(svg, pts)]
    ∧ (s.is_live = true → (submit_list l s).queue = [l.getLast hne])
    ∧ (s.is_live = false → (submit_list l s).queue = s.queue ++ l) :=
  ⟨queue_svg_queue svg pts s,
   fun h => submit_list_queue_of_live l s h hne,
   fun h => submit_list_queue_of_not_live l s h⟩

/-- C4, witness: live collapsing of two submissions at a concrete run. -/
theorem C4_live_collapse_w :
    (submit_list [("a", 1), ("b", 2)] (initial_state 0)).queue = [("b", 2)] := by
  have h := (C4_live_collapse (initial_state 0) "x" 0 [("a", 1), ("b", 2)]
    (by simp)).2.1 rfl
  exact h.trans rfl

/-- C5: FIFO under non-live mode — submitting `l` to an idle non-live
source and then performing `l.length` fill calls delivers exactly the items
of `l`, in submission order, each with the timestamp given at its submit
and with flow status `OK`. -/
theorem C5_fifo (raster : Raster) (stride now : Nat) (l : List (String × Nat))
    (bufs : List (List Nat)) (s : SourceState)
    (hlive : s.is_live = false) (hf : s.flushing = false) (he : s.eos = false)
    (hq : s.queue = []) (hlen : bufs.length = l.length)
    (hcap : ∀ b ∈ bufs, stride * s.height ≤ b.length) :
    (fill_seq raster stride now bufs (submit_list l s)).1.map
        FillResult.delivered
      = l.map (fun p => some (p.1, p.2, FlowReturn.ok)) := by
  apply fill_seq_drain raster stride now l bufs (submit_list l s)
  · rw [submit_list_flushing]; exact hf
  · rw [submit_list_eos]; exact he
  · rw [submit_list_queue_of_not_live l s hlive, hq]; simp
  · exact hlen
  · intro b hb; rw [submit_list_height]; exact hcap b hb

/-- C5, witness: two submissions delivered in order at a concrete run. -/
theorem C5_fifo_w :
    (fill_seq raster_id 0 0 [[], []]
        (submit_list [("a", 1), ("b", 2)]
          { initial_state 0 with is_live := false })).1.map
        FillResult.delivered
      = [some ("a", 1, FlowReturn.ok), some ("b", 2, FlowReturn.ok)] := by
  have h := C5_fifo raster_id 0 0 [("a", 1), ("b", 2)] [[], []]
    { initial_state 0 with is_live := false } rfl rfl rfl rfl rfl
    (by intro b hb; simp)
  exact h.trans rfl

/-- C6: a fill whose destination buffer is shorter than `stride * height`
bytes makes `render_svg` take the error branch before the zero-fill and
rasterization steps (the returned value carries no written buffer), and the
fill call propagates the consistency error having only popped the item. -/
theorem C6_capacity_guard (raster : Raster) (s : SourceState) (svg : String)
    (pts : Nat) (rest : List (String × Nat)) (buf : List Nat)
    (stride now : Nat) (hlt : buf.length < stride * s.height) :
    render_svg raster s svg buf stride = Except.error RenderError.bufferTooSmall
    ∧ (s.queue = (svg, pts) :: rest → s.eos = false → s.flushing = false →
        do_gst_push_src_fill raster s buf stride now =
          FillResult.renderError { s with queue := rest }) := by
  constructor
  · rw [render_svg, if_neg (by omega)]
  · intro hq he hf
    exact fill_render_error raster s svg pts rest buf stride now hq hf hlt

/-- C6, witness: a 10-byte buffer against stride 256 × height 640. -/
theorem C6_capacity_guard_w :
    render_svg raster_id { initial_state 0 with queue := [("a", 7)] } "a"
        (List.replicate 10 0) 256
      = Except.error RenderError.bufferTooSmall
    ∧ do_gst_push_src_fill raster_id { initial_state 0 with queue := [("a", 7)] }
        (List.replicate 10 0) 256 0
      = FillResult.renderError
          { initial_state 0 with queue := ([] : List (String × Nat)) } := by
  have h := C6_capacity_guard raster_id
    { initial_state 0 with queue := [("a", 7)] } "a" 7 [] (List.replicate 10 0)
    256 0 (by simp [initial_state, DEFAULT_HEIGHT])
  exact ⟨h.1, h.2 rfl rfl rfl⟩

/-- C7: after negotiating 64×32 and submitting `"<svg/>"` with timestamp
1000, a fill with an 8192-byte buffer at stride 256 returns `OK`, stamps
timestamp 1000, and leaves the buffer all zero: the render step zeroes the
whole destination before rasterizing, and (hypothesis, since the rasterizer
is an external collaborator) the markup draws nothing. -/
theorem C7_render_scenario (raster : Raster) (buf : List Nat) (now : Nat)
    (hlen : buf.length = 64 * 32 * 4)
    (hraster : raster "<svg/>" 64 32 256 (List.replicate 8192 0)
      = List.replicate 8192 0) :
    ∃ s2,
      do_gst_push_src_fill raster
          (queue_svg "<svg/>" 1000 (do_set_caps 64 32 (initial_state 0)))
          buf 256 now
        = FillResult.rendered "<svg/>" 1000 FlowReturn.ok
            (List.replicate 8192 0) s2 := by
  obtain ⟨s2, heq, _⟩ :=
    fill_pop raster (queue_svg "<svg/>" 1000 (do_set_caps 64 32 (initial_state 0)))
      "<svg/>" 1000 [] buf 256 now rfl rfl (by rw [hlen]; decide)
  refine ⟨s2, ?_⟩
  rw [heq]
  have hfr : (if ([] : List (String × Nat)) = [] ∧
      (queue_svg "<svg/>" 1000 (do_set_caps 64 32 (initial_state 0))).eos = true
      then FlowReturn.eos else FlowReturn.ok) = FlowReturn.ok := by
    simp [do_set_caps, initial_state]
  rw [hfr,
    show (queue_svg "<svg/>" 1000 (do_set_caps 64 32 (initial_state 0))).width
      = 64 from rfl,
    show (queue_svg "<svg/>" 1000 (do_set_caps 64 32 (initial_state 0))).height
      = 32 from rfl,
    hlen, hraster]

/-- C7, witness: the scenario run with the nothing-drawing rasterizer. -/
theorem C7_render_scenario_w :
    ∃ s2,
      do_gst_push_src_fill raster_id
          (queue_svg "<svg/>" 1000 (do_set_caps 64 32 (initial_state 0)))
          (List.replicate 8192 0) 256 0
        = FillResult.rendered "<svg/>" 1000 FlowReturn.ok
            (List.replicate 8192 0) s2 :=
  C7_render_scenario raster_id (List.replicate 8192 0) 0
    (by rw [List.length_replicate]) rfl

/-- C8: the flush-detection test at line 142 uses bitwise OR with
`Gst.SeekFlags.FLUSH` (= 1), so it is nonzero — hence true — for every
flag word, and every seek event sends flush-start and flush-stop and then
resets the source. -/
theorem C8_seek_flush_always (flags : Nat) (s : SourceState) :
    seek_flush_test flags = true
    ∧ do_event_seek flags s =
        ([SentEvent.flush_start, SentEvent.flush_stop], reset s) := by
  have h : seek_flush_test flags = true := by
    unfold seek_flush_test gst_seek_flag_flush
    simp only [decide_eq_true_eq]
    intro h0
    have h1 := congrArg (fun n => Nat.testBit n 0) h0
    simp [Nat.testBit_or] at h1
  exact ⟨h, by simp [do_event_seek, h]⟩

/-- C9, counterexample: the claim says no operation ever decreases
`inputFrames` or `outputFrames`.  With FPS reporting enabled
(`print_fps = 1`) and the window elapsed, a fill call resets both counters
to zero inside the statistics block (lines 243-244): here `output_frames`
drops from 5 to 0. -/
theorem C9_fill_resets_counters :
    ((do_gst_push_src_fill raster_id
        { initial_state 1 with fps_start := 1, input_frames := 3, output_frames := 5, queue := [("a", 0)] }
        [] 0 10).state).output_frames
      < ({ initial_state 1 with fps_start := 1, input_frames := 3, output_frames := 5, queue := [("a", 0)] }).output_frames := by
  decide

/-- C9 (amended): with FPS reporting disabled (`print_fps = 0`, the
default), every submit increments `input_frames` by one, every fill that
renders an item increments `output_frames` by one, and no operation
(submit, fill, reset, set_eos, set_flushing) decreases either counter; the
periodic-reporting reset inside fill (when `print_fps > 0` and the window
has elapsed) is the only exception, as the counterexample shows. -/
theorem C9_counters_monotone_when_reporting_disabled (svg : String) (pts : Nat)
    (raster : Raster) (s : SourceState) (buf : List Nat) (stride now : Nat)
    (v : Bool) (hp : s.print_fps = 0) :
    ((queue_svg svg pts s).input_frames = s.input_frames + 1
      ∧ (queue_svg svg pts s).output_frames = s.output_frames)
    ∧ (s.input_frames
          ≤ ((do_gst_push_src_fill raster s buf stride now).state).input_frames
        ∧ s.output_frames
          ≤ ((do_gst_push_src_fill raster s buf stride now).state).output_frames)
    ∧ ((do_gst_push_src_fill raster s buf stride now).is_rendered = true →
        ((do_gst_push_src_fill raster s buf stride now).state).output_frames
          = s.output_frames + 1)
    ∧ ((reset s).input_frames = s.input_frames
        ∧ (reset s).output_frames = s.output_frames)
    ∧ ((set_eos s).input_frames = s.input_frames
        ∧ (set_eos s).output_frames = s.output_frames)
    ∧ ((set_flushing v s).input_frames = s.input_frames
        ∧ (set_flushing v s).output_frames = s.output_frames) := by
  obtain ⟨hci, hco⟩ := fill_counters_of_disabled raster s buf stride now hp
  refine ⟨⟨queue_svg_input_frames svg pts s, queue_svg_output_frames svg pts s⟩,
    ⟨le_of_eq hci.symm, ?_⟩, ?_, ⟨rfl, rfl⟩, ⟨rfl, rfl⟩, ⟨rfl, rfl⟩⟩
  · rw [hco]; exact Nat.le_add_right _ _
  · intro hr
    rw [hco, hr]
    simp

/-- C9, witness: the amended claim at a concrete run. -/
theorem C9_counters_monotone_w :
    (initial_state 0).output_frames
      ≤ ((do_gst_push_src_fill raster_id (initial_state 0) [] 0 0).state).output_frames :=
  (C9_counters_monotone_when_reporting_disabled "a" 0 raster_id (initial_state 0)
    [] 0 0 true rfl).2.1.2

/-- C10: `queue_svg` performs no flushing check, so items submitted while
`flushing` is set are counted in `input_frames` and retained: on a non-live
source they accumulate in order (on a live source the queue collapses to
the most recent), and after `set_flushing false` subsequent fills deliver
exactly the items submitted during the flush, in order. -/
theorem C10_submit_during_flush (raster : Raster) (l : List (String × Nat))
    (bufs : List (List Nat)) (s : SourceState) (stride now : Nat)
    (hfl : s.flushing = true) (he : s.eos = false) (hq : s.queue = [])
    (hlen : bufs.length = l.length)
    (hcap : ∀ b ∈ bufs, stride * s.height ≤ b.length) :
    (submit_list l s).input_frames = s.input_frames + l.length
    ∧ (submit_list l s).flushing = true
    ∧ (s.is_live = false → (submit_list l s).queue = l)
    ∧ (s.is_live = true → ∀ hne : l ≠ [],
        (submit_list l s).queue = [l.getLast hne])
    ∧ (s.is_live = false →
        (fill_seq raster stride now bufs
            (set_flushing false (submit_list l s))).1.map FillResult.delivered
          = l.map (fun p => some (p.1, p.2, FlowReturn.ok))) := by
  refine ⟨submit_list_input_frames l s, ?_, ?_, ?_, ?_⟩
  · rw [submit_list_flushing]; exact hfl
  · intro hlive
    rw [submit_list_queue_of_not_live l s hlive, hq]; simp
  · intro hlive hne
    exact submit_list_queue_of_live l s hlive hne
  · intro hlive
    apply fill_seq_drain raster stride now l bufs
    · simp [set_flushing]
    · simp [set_flushing, submit_list_eos, he]
    · rw [show (set_flushing false (submit_list l s)).queue
        = (submit_list l s).queue from rfl,
        submit_list_queue_of_not_live l s hlive, hq]
      simp
    · exact hlen
    · intro b hb
      rw [show (set_flushing false (submit_list l s)).height
        = (submit_list l s).height from rfl, submit_list_height]
      exact hcap b hb

/-- C10, witness: two items submitted during a flush on a non-live source,
then delivered in order after the flush ends. -/
theorem C10_submit_during_flush_w :
    (submit_list [("a", 1), ("b", 2)]
        { initial_state 0 with is_live := false, flushing := true }).input_frames
      = 2
    ∧ (fill_seq raster_id 0 0 [[], []]
          (set_flushing false
            (submit_list [("a", 1), ("b", 2)]
              { initial_state 0 with is_live := false, flushing := true }))).1.map
          FillResult.delivered
        = [some ("a", 1, FlowReturn.ok), some ("b", 2, FlowReturn.ok)] := by
  have h := C10_submit_during_flush raster_id [("a", 1), ("b", 2)] [[], []]
    { initial_state 0 with is_live := false, flushing := true } 0 0
    rfl rfl rfl rfl (by intro b hb; simp)
  exact ⟨h.1.trans rfl, (h.2.2.2.2 rfl).trans rfl⟩

end SvgOverlaySource
